import Mathlib

/-!
Verification of the delaware-hybrid-langgraph agent core against its design
specification.  The Python modules src/agent/nodes.py, src/tools_sql.py and
src/tools_rag.py are shallowly embedded: external collaborators (the hosted
LLM, the sqlite engine, the vector store, json.loads) are modelled as
oracles passed in as function arguments or as per-message parse data, while
the control logic of each node and tool is translated statement by
statement.
-/

namespace DelawareAgent

/-! ## Python value model

Tool message content is text that may or may not parse as JSON.  We model
the result of json.loads as a PyVal: the subset of Python values that
json.loads can produce (None, bool, int, str, list, dict).  JSON floats are
not needed by any property below and are omitted.
-/

inductive PyVal where
  | none_ : PyVal
  | bool : Bool → PyVal
  | int : Int → PyVal
  | str : String → PyVal
  | list : List PyVal → PyVal
  | dict : List (String × PyVal) → PyVal

/-- A single apostrophe character, as used by the Python repr of strings. -/
def sq : String := String.singleton (Char.ofNat 39)

/-- Model of the Python repr() of a json.loads value (string escaping inside
container reprs is not modelled; no property below depends on it). -/
def pyRepr : PyVal → String
  | PyVal.none_ => "None"
  | PyVal.bool true => "True"
  | PyVal.bool false => "False"
  | PyVal.int n => toString n
  | PyVal.str s => sq ++ s ++ sq
  | PyVal.list xs =>
      "[" ++ String.intercalate ", " (xs.attach.map (fun y => pyRepr y.1)) ++ "]"
  | PyVal.dict fs =>
      "\x7b" ++
        String.intercalate ", "
          (fs.attach.map (fun kv => sq ++ kv.1.1 ++ sq ++ ": " ++ pyRepr kv.1.2)) ++
      "\x7d"
termination_by v => sizeOf v
decreasing_by
  · have := List.sizeOf_lt_of_mem y.2
    simp only [PyVal.list.sizeOf_spec]
    omega
  · have h1 := List.sizeOf_lt_of_mem kv.2
    have h2 : sizeOf kv.1.2 < sizeOf kv.1 := by
      obtain ⟨a, b⟩ := kv.1
      simp only [Prod.mk.sizeOf_spec]
      omega
    simp only [PyVal.dict.sizeOf_spec]
    omega

/-- Model of the Python str() of a json.loads value: identity on strings,
repr-based rendering elsewhere. -/
def pyStr : PyVal → String
  | PyVal.str s => s
  | PyVal.bool true => "True"
  | PyVal.bool false => "False"
  | v => pyRepr v

/-- Lookup in a Python dict produced by json.loads (keys are unique). -/
def lookupDict (fs : List (String × PyVal)) (k : String) : Option PyVal :=
  (fs.find? (fun kv => kv.1 == k)).map Prod.snd

/-! ## Message and state model

LangChain messages are modelled with their type tag, tool name, raw text
content, and the outcome of json.loads on that content (some v when the
text parses as the JSON value v, none when json.loads raises
JSONDecodeError).  Attaching the parse outcome to the message is the
oracle for json.loads; we do not embed a JSON text parser.
-/

inductive MsgType where
  | human : MsgType
  | ai : MsgType
  | tool : MsgType
  | system : MsgType
deriving DecidableEq

structure Msg where
  type : MsgType
  name : String
  content : String
  parsedContent : Option PyVal

/-- One entry of the rag_sources list: the Python dict
with keys source and tool built in collect_results. -/
structure RagSource where
  source : String
  tool : String
deriving DecidableEq

/-- The AgentState TypedDict of src/agent/state.py.  The graph initialises
every field at turn start, so fields are modelled as always present; the
state.get defaults in nodes.py coincide with those initial values. -/
structure AgentState where
  messages : List Msg
  depth : Int
  max_iterations : Nat
  iteration : Nat
  collected_results : List String
  todo : List String
  reflection : String
  reflection_satisfied : Bool
  rag_sources : List RagSource

/-! ## Conditional edge after reflect (nodes.py, route_after_reflect) -/

/-- route_after_reflect of src/agent/nodes.py: branch to synthesize when
the reflect decision is satisfied or the iteration bound is reached,
otherwise loop back to plan. -/
def route_after_reflect (st : AgentState) : String :=
  if st.reflection_satisfied ∨ st.max_iterations ≤ st.iteration then
    "synthesize"
  else
    "plan"

/-- C1: after reflect, any state with iteration >= max_iterations routes to
synthesize regardless of reflection_satisfied, and the loop back to plan is
taken exactly when the reflect decision is unsatisfied and the iteration
count is still below the bound. -/
theorem route_after_reflect_forced_termination (st : AgentState) :
    (st.max_iterations ≤ st.iteration → route_after_reflect st = "synthesize") ∧
    (route_after_reflect st = "plan" ↔
      st.reflection_satisfied = false ∧ st.iteration < st.max_iterations) := by
  constructor
  · intro h
    simp [route_after_reflect, h]
  · constructor
    · intro h
      by_contra hc
      rw [route_after_reflect] at h
      by_cases hcond : st.reflection_satisfied ∨ st.max_iterations ≤ st.iteration
      · rw [if_pos hcond] at h
        exact absurd h (by decide)
      · push_neg at hcond
        exact hc ⟨by simpa using hcond.1, hcond.2⟩
    · intro ⟨hs, hi⟩
      rw [route_after_reflect, if_neg]
      push_neg
      exact ⟨by simp [hs], hi⟩

/-- Concrete state exercising the forced-termination branch: the reflect
model is unsatisfied but the iteration bound has been reached. -/
def wReflectState : AgentState :=
  { messages := []
    depth := 1
    max_iterations := 2
    iteration := 2
    collected_results := []
    todo := []
    reflection := "need more data"
    reflection_satisfied := false
    rag_sources := [] }

/-- C1 witness: at iteration 2 of 2 with reflection_satisfied = false the
route is synthesize. -/
theorem route_after_reflect_forced_termination_witness :
    route_after_reflect wReflectState = "synthesize" :=
  (route_after_reflect_forced_termination wReflectState).1 (by decide)

/-! ## collect_results (nodes.py lines 79-100)

The node walks the message list from most recent backward, collecting tool
results into collected_results until the first assistant (ai) message is
reached.  For query_rag results the content is parsed as JSON: the try
block catches exactly JSONDecodeError and KeyError; subscripting a JSON
value that is not an object (for example an int) raises TypeError, which
that except clause does not catch, so the exception escapes the node.
-/

/-- Python exceptions that can escape the modelled code. -/
inductive PyError where
  | typeError : PyError
deriving DecidableEq

/-- Model of PurePosixPath(str(src)).name for ordinary path strings:
trailing slashes are ignored and the last slash-separated component is
returned. -/
def pathName (s : String) : String :=
  let t := (s.data.reverse.dropWhile (fun c => c == '/')).reverse
  String.mk ((t.reverse.takeWhile (fun c => c != '/')).reverse)

/-- Model of Python iteration over a json.loads value: lists yield their
elements, strings their characters, dicts their keys; iterating any other
value raises TypeError (none). -/
def pyIter : PyVal → Option (List PyVal)
  | PyVal.list xs => some xs
  | PyVal.str s => some (s.data.map (fun c => PyVal.str (String.singleton c)))
  | PyVal.dict fs => some (fs.map (fun kv => PyVal.str kv.1))
  | _ => none

/-- The query_rag branch of collect_results (nodes.py lines 87-94): the
try block parses the content, reads the answer key, and walks
used_sources; JSONDecodeError and KeyError fall back to appending the raw
content, while a TypeError (non-object JSON, or a non-iterable
used_sources value) escapes.  Returns the fragment to append to
collected_results and the rag_sources entries to add. -/
def processRagContent (parsed : Option PyVal) (raw : String) :
    Except PyError (String × List RagSource) :=
  match parsed with
  | Option.none => Except.ok ("[query_rag] " ++ raw, [])
  | some (PyVal.dict fs) =>
    match lookupDict fs "answer" with
    | Option.none => Except.ok ("[query_rag] " ++ raw, [])
    | some ans =>
      match pyIter ((lookupDict fs "used_sources").getD (PyVal.list [])) with
      | Option.none => Except.error PyError.typeError
      | some srcs =>
          Except.ok ("[query_rag] " ++ pyStr ans,
            srcs.map (fun src =>
              { source := pathName (pyStr src), tool := "query_rag" }))
  | some _ => Except.error PyError.typeError

/-- The scan loop of collect_results over the reversed message list:
tool messages contribute a fragment (and possibly rag_sources entries),
the first ai message stops the scan, other messages are skipped. -/
def collectLoop : List Msg → Except PyError (List String × List RagSource)
  | [] => Except.ok ([], [])
  | msg :: rest =>
    if msg.type = MsgType.tool then
      match (if msg.name = "query_rag" then
               processRagContent msg.parsedContent msg.content
             else
               Except.ok ("[" ++ msg.name ++ "] " ++ msg.content, [])) with
      | Except.error e => Except.error e
      | Except.ok (frag, srcs) =>
        match collectLoop rest with
        | Except.error e => Except.error e
        | Except.ok (fs, ss) => Except.ok (frag :: fs, srcs ++ ss)
    else if msg.type = MsgType.ai then
      Except.ok ([], [])
    else
      collectLoop rest

/-- collect_results of src/agent/nodes.py: extend the accumulated
collected_results and rag_sources with whatever the scan over the newest
window produced.  An escaping exception aborts the node with no state
update, which the error branch models. -/
def collect_results (st : AgentState) :
    Except PyError (List String × List RagSource) :=
  (collectLoop st.messages.reverse).map
    (fun p => (st.collected_results ++ p.1, st.rag_sources ++ p.2))

/-- The LangGraph state update performed by the collect_results node: the
returned collected_results and rag_sources values replace those state
fields (no reducer is declared for them in state.py). -/
def applyCollect (st : AgentState) : Except PyError AgentState :=
  (collect_results st).map
    (fun p => { st with collected_results := p.1, rag_sources := p.2 })

/-! ### C2: collect_results is not idempotent over a frozen history -/

/-- A frozen history for one planning round: the plan message (ai)
followed by one SQL tool result. -/
def cexCollectState : AgentState :=
  { messages :=
      [ { type := MsgType.human, name := "", content := "top products",
          parsedContent := Option.none },
        { type := MsgType.ai, name := "", content := "",
          parsedContent := Option.none },
        { type := MsgType.tool, name := "query_sql", content := "row1",
          parsedContent := Option.none } ]
    depth := 1
    max_iterations := 2
    iteration := 1
    collected_results := []
    todo := []
    reflection := ""
    reflection_satisfied := false
    rag_sources := [] }

/-- C2 counterexample: running collect_results a second time on the same
frozen message history re-appends the fragment of the newest window, so
collected_results changes from one entry to two equal entries; the two
results compare unequal.  This refutes idempotence as claimed. -/
theorem collect_results_not_idempotent_cex :
    (applyCollect cexCollectState).map AgentState.collected_results =
      Except.ok ["[query_sql] row1"] ∧
    ((applyCollect cexCollectState).bind applyCollect).map
        AgentState.collected_results =
      Except.ok ["[query_sql] row1", "[query_sql] row1"] ∧
    ((["[query_sql] row1", "[query_sql] row1"] : List String) ==
        ["[query_sql] row1"]) = false := by
  exact ⟨rfl, rfl, rfl⟩

/-- C2 amended: rerunning collect_results on a frozen message history
appends the fragments and sources extracted from the newest window a
second time; it leaves collected_results unchanged only when that window
contributes nothing. -/
theorem collect_results_rerun_appends_window_again (st : AgentState)
    (fs : List String) (ss : List RagSource)
    (h : collectLoop st.messages.reverse = Except.ok (fs, ss)) :
    applyCollect st =
      Except.ok { st with
        collected_results := st.collected_results ++ fs
        rag_sources := st.rag_sources ++ ss } ∧
    applyCollect { st with
        collected_results := st.collected_results ++ fs
        rag_sources := st.rag_sources ++ ss } =
      Except.ok { st with
        collected_results := (st.collected_results ++ fs) ++ fs
        rag_sources := (st.rag_sources ++ ss) ++ ss } := by
  constructor
  · simp [applyCollect, collect_results, h, Except.map]
  · simp [applyCollect, collect_results, h, Except.map]

/-- C2 witness: the second run on the concrete frozen history appends the
window fragment again. -/
theorem collect_results_rerun_appends_window_again_witness :
    applyCollect cexCollectState =
      Except.ok { cexCollectState with
        collected_results :=
          cexCollectState.collected_results ++ ["[query_sql] row1"]
        rag_sources := cexCollectState.rag_sources ++ [] } ∧
    applyCollect { cexCollectState with
        collected_results :=
          cexCollectState.collected_results ++ ["[query_sql] row1"]
        rag_sources := cexCollectState.rag_sources ++ [] } =
      Except.ok { cexCollectState with
        collected_results :=
          (cexCollectState.collected_results ++ ["[query_sql] row1"]) ++
            ["[query_sql] row1"]
        rag_sources := (cexCollectState.rag_sources ++ []) ++ [] } :=
  collect_results_rerun_appends_window_again cexCollectState
    ["[query_sql] row1"] [] rfl

/-! ### C6: malformed query_rag output -/

/-- History whose newest window holds a query_rag result whose content is
the text 42: json.loads succeeds and yields the int 42, which has no
answer key; subscripting it raises TypeError. -/
def cexRagState : AgentState :=
  { messages :=
      [ { type := MsgType.ai, name := "", content := "",
          parsedContent := Option.none },
        { type := MsgType.tool, name := "query_rag", content := "42",
          parsedContent := some (PyVal.int 42) } ]
    depth := 1
    max_iterations := 2
    iteration := 1
    collected_results := []
    todo := []
    reflection := ""
    reflection_satisfied := false
    rag_sources := [] }

/-- C6 counterexample: a query_rag result whose content parses as JSON but
is not an object (so it has no answer key) makes collect_results raise
TypeError instead of appending the raw content: the exception escapes the
node, refuting the claim for this message. -/
theorem collect_rag_typeerror_cex :
    applyCollect cexRagState = Except.error PyError.typeError ∧
    (applyCollect cexRagState).isOk = false := by
  exact ⟨rfl, rfl⟩

/-- C6 amended: for a query_rag tool message whose content fails to parse
as JSON, or parses as a JSON object lacking the answer key, the scan
appends the raw content as a fragment prefixed with the tool name, adds no
rag_sources entry for that message, and raises no exception. -/
theorem collect_rag_parse_failure_fragment (msg : Msg) (rest : List Msg)
    (fs : List String) (ss : List RagSource)
    (htype : msg.type = MsgType.tool) (hname : msg.name = "query_rag")
    (h : msg.parsedContent = Option.none ∨
         ∃ flds, msg.parsedContent = some (PyVal.dict flds) ∧
           lookupDict flds "answer" = Option.none)
    (hrest : collectLoop rest = Except.ok (fs, ss)) :
    collectLoop (msg :: rest) =
      Except.ok (("[query_rag] " ++ msg.content) :: fs, ss) := by
  have hproc : processRagContent msg.parsedContent msg.content =
      Except.ok ("[query_rag] " ++ msg.content, []) := by
    rcases h with h | ⟨flds, hflds, hlook⟩
    · simp [processRagContent, h]
    · simp [processRagContent, hflds, hlook]
  simp [collectLoop, htype, hname, hproc, hrest]

/-- A query_rag result whose content is not valid JSON (the plain
no-context sentinel, for instance). -/
def wRagFailMsg : Msg :=
  { type := MsgType.tool, name := "query_rag",
    content := "No relevant product technical sheet context found for this question.",
    parsedContent := Option.none }

/-- C6 witness: the non-JSON query_rag result degrades to a tagged raw
fragment with no source entry. -/
theorem collect_rag_parse_failure_fragment_witness :
    collectLoop [wRagFailMsg] =
      Except.ok (["[query_rag] " ++ wRagFailMsg.content], []) :=
  collect_rag_parse_failure_fragment wRagFailMsg [] [] [] rfl rfl
    (Or.inl rfl) rfl

/-! ## SQL tool (src/tools_sql.py, query_sql)

The sqlite engine is an oracle: given the stripped statement it either
raises (Except.error, carrying the message of the sqlite exception) or
returns the fetched rows.  QueryResult.columns models rows[0].keys() (the
cursor columns, shared by every row) and each row is the list of its
values rendered by str(), in column order.  The Python string methods
strip, upper and startswith are modelled character-wise over the string
data; they agree with Python on the ASCII inputs the guard compares.
-/

/-- Model of Python str.strip(): drop leading and trailing whitespace. -/
def pyStrip (s : String) : String :=
  String.mk (((s.data.dropWhile Char.isWhitespace).reverse.dropWhile
    Char.isWhitespace).reverse)

/-- Model of Python str.upper(): character-wise upper casing. -/
def pyUpper (s : String) : String := String.mk (s.data.map Char.toUpper)

/-- Model of Python str.startswith. -/
def pyStartsWith (s pre : String) : Bool := pre.data.isPrefixOf s.data

structure QueryResult where
  columns : List String
  rows : List (List String)
deriving DecidableEq

def SQL_REJECT : String := "Error: only SELECT queries are allowed."

def SQL_ZERO_ROWS : String := "Query returned 0 rows."

/-- Model of the Python newline join used to assemble the result table. -/
def joinLines : List String → String
  | [] => ""
  | [l] => l
  | l :: l2 :: ls => l ++ "\n" ++ joinLines (l2 :: ls)

/-- The result_lines list built by query_sql for a non-empty result set:
header row, dash separator of the same character length, the first 200
data rows, and one truncation notice when more rows existed. -/
def sqlResultLines (res : QueryResult) : List String :=
  let header := String.intercalate " | " res.columns
  let sep := String.mk (List.replicate header.length '-')
  let base := header :: sep :: (res.rows.take 200).map (String.intercalate " | ")
  if 200 < res.rows.length then
    base ++ ["... (" ++ toString res.rows.length ++ " total rows, showing first 200)"]
  else
    base

/-- query_sql of src/tools_sql.py.  The engine oracle is the call to
cursor.execute plus fetchall on the stripped statement. -/
def query_sql (engine : String → Except String QueryResult) (sql : String) :
    Except String String :=
  let sqlStripped := pyStrip sql
  if (pyStartsWith (pyUpper sqlStripped) "SELECT") = false then
    Except.ok SQL_REJECT
  else
    match engine sqlStripped with
    | Except.error e => Except.error e
    | Except.ok res =>
      if res.rows = [] then Except.ok SQL_ZERO_ROWS
      else Except.ok (joinLines (sqlResultLines res))

/-- C3: any input whose stripped form does not start (case-insensitively)
with SELECT is rejected with the fixed error string, for every engine
oracle alike — in particular the statement is never executed against the
database. -/
theorem query_sql_rejects_non_select
    (engine : String → Except String QueryResult) (sql : String)
    (h : pyStartsWith (pyUpper (pyStrip sql)) "SELECT" = false) :
    query_sql engine sql = Except.ok SQL_REJECT := by
  simp [query_sql, h]

/-- An engine oracle that records being consulted by raising. -/
def wTrapEngine : String → Except String QueryResult :=
  fun _ => Except.error "engine was invoked"

/-- C3 witness: a DELETE statement is rejected even under an engine that
would raise if consulted. -/
theorem query_sql_rejects_non_select_witness :
    query_sql wTrapEngine " DELETE FROM products " = Except.ok SQL_REJECT :=
  query_sql_rejects_non_select wTrapEngine " DELETE FROM products " (by decide)

/-- C4: under any engine run, a SELECT with zero rows returns the literal
zero-rows message, and a SELECT with more than 200 rows returns the table
whose lines are the header, the separator, exactly 200 data rows, and
exactly one trailing truncation notice stating the true total row
count. -/
theorem query_sql_truncation_and_zero_rows
    (engine : String → Except String QueryResult) (sql : String)
    (res : QueryResult)
    (hsel : pyStartsWith (pyUpper (pyStrip sql)) "SELECT" = true)
    (heng : engine (pyStrip sql) = Except.ok res) :
    (res.rows = [] → query_sql engine sql = Except.ok SQL_ZERO_ROWS) ∧
    (200 < res.rows.length →
      query_sql engine sql =
        Except.ok (joinLines
          ((String.intercalate " | " res.columns) ::
            (String.mk (List.replicate
              (String.intercalate " | " res.columns).length '-')) ::
            ((res.rows.take 200).map (String.intercalate " | ") ++
              ["... (" ++ toString res.rows.length ++
                " total rows, showing first 200)"]))) ∧
      ((res.rows.take 200).map (String.intercalate " | ")).length = 200) := by
  constructor
  · intro h
    simp [query_sql, hsel, heng, h]
  · intro h
    have hne : res.rows ≠ [] := by
      intro hh
      rw [hh] at h
      simp at h
    refine ⟨?_, ?_⟩
    · simp [query_sql, hsel, heng, hne, sqlResultLines, h]
    · rw [List.length_map, List.length_take]
      omega

/-- A 201-row single-column result set. -/
def wSqlRes : QueryResult := { columns := ["c"], rows := List.replicate 201 ["v"] }

set_option maxRecDepth 8192 in
/-- C4 witness: a SELECT whose result has 201 rows yields the table with
exactly 200 data rows and one truncation notice naming 201 as the true
total. -/
theorem query_sql_truncation_and_zero_rows_witness :
    query_sql (fun _ => Except.ok wSqlRes) "SELECT 1" =
      Except.ok (joinLines
        ((String.intercalate " | " wSqlRes.columns) ::
          (String.mk (List.replicate
            (String.intercalate " | " wSqlRes.columns).length '-')) ::
          ((wSqlRes.rows.take 200).map (String.intercalate " | ") ++
            ["... (" ++ toString wSqlRes.rows.length ++
              " total rows, showing first 200)"]))) ∧
    ((wSqlRes.rows.take 200).map (String.intercalate " | ")).length = 200 :=
  (query_sql_truncation_and_zero_rows (fun _ => Except.ok wSqlRes)
    "SELECT 1" wSqlRes (by decide) rfl).2 (by decide)

/-- C5: when the guard passes but the engine raises on the statement, the
exception propagates out of query_sql instead of any string result. -/
theorem query_sql_propagates_engine_error
    (engine : String → Except String QueryResult) (sql e : String)
    (hsel : pyStartsWith (pyUpper (pyStrip sql)) "SELECT" = true)
    (heng : engine (pyStrip sql) = Except.error e) :
    query_sql engine sql = Except.error e := by
  simp [query_sql, hsel, heng]

/-- C5 witness: a syntactically invalid SELECT makes the engine raise and
query_sql surfaces that exception. -/
theorem query_sql_propagates_engine_error_witness :
    query_sql (fun _ => Except.error "no such table: nonexistent_table_xyz")
      "SELECT * FROM nonexistent_table_xyz" =
      Except.error "no such table: nonexistent_table_xyz" :=
  query_sql_propagates_engine_error _ _ _ (by decide) rfl

/-- String concatenation acts as list concatenation on the underlying
character data. -/
theorem data_append_eq (a b : String) : (a ++ b).data = a.data ++ b.data := by
  cases a
  cases b
  rfl

/-- Joining at least two lines always produces a newline character. -/
theorem joinLines_two_mem (a b : String) (l : List String) :
    '\n' ∈ (joinLines (a :: b :: l)).data := by
  rw [joinLines, data_append_eq, data_append_eq]
  refine List.mem_append.mpr (Or.inl ?_)
  refine List.mem_append.mpr (Or.inr ?_)
  simp [show ("\n").data = ['\n'] from rfl]

/-- The result lines of a non-empty result set always start with the
header and the separator. -/
theorem sqlResultLines_shape (res : QueryResult) :
    ∃ a b l, sqlResultLines res = a :: b :: l := by
  simp only [sqlResultLines]
  by_cases h200 : 200 < res.rows.length
  · rw [if_pos h200]
    exact ⟨_, _, _, rfl⟩
  · rw [if_neg h200]
    exact ⟨_, _, _, rfl⟩

/-- The table assembled for a non-empty result set is never the rejection
string: it spans at least two lines while the rejection string holds no
newline. -/
theorem sql_table_ne_reject (res : QueryResult) :
    joinLines (sqlResultLines res) ≠ SQL_REJECT := by
  intro h
  obtain ⟨a, b, l, hl⟩ := sqlResultLines_shape res
  rw [hl] at h
  have hmem := joinLines_two_mem a b l
  rw [h] at hmem
  exact absurd hmem (by decide)

/-- C10: the read-only guard is exactly the case-insensitive SELECT prefix
check on the stripped input — the rejection string is returned iff that
check fails, for every engine.  Consequently a read-only WITH query is
rejected, while a statement merely beginning with the letters SELECT
(SELECTION 1) passes the guard and is handed to the engine, whose outcome
surfaces. -/
theorem query_sql_guard_exactly_prefix_check :
    (∀ (engine : String → Except String QueryResult) (sql : String),
      query_sql engine sql = Except.ok SQL_REJECT ↔
        pyStartsWith (pyUpper (pyStrip sql)) "SELECT" = false) ∧
    (∀ engine : String → Except String QueryResult,
      query_sql engine "WITH t AS (SELECT 1) SELECT * FROM t" =
        Except.ok SQL_REJECT) ∧
    (∀ e : String,
      query_sql (fun _ => Except.error e) "SELECTION 1" = Except.error e) := by
  refine ⟨?_, ?_, ?_⟩
  · intro engine sql
    constructor
    · intro h
      by_contra hsel
      rw [Bool.not_eq_false] at hsel
      rw [query_sql] at h
      simp only [hsel] at h
      cases heng : engine (pyStrip sql) with
      | error e =>
        rw [heng] at h
        simp at h
      | ok res =>
        rw [heng] at h
        simp only [Bool.true_eq_false, if_false] at h
        by_cases hrows : res.rows = []
        · rw [if_pos hrows] at h
          have := Except.ok.inj h
          exact absurd this (by decide)
        · rw [if_neg hrows] at h
          exact sql_table_ne_reject res (Except.ok.inj h)
    · intro h
      simp [query_sql, h]
  · intro engine
    simp [query_sql,
      show pyStartsWith (pyUpper (pyStrip "WITH t AS (SELECT 1) SELECT * FROM t"))
        "SELECT" = false from by decide]
  · intro e
    simp [query_sql,
      show pyStartsWith (pyUpper (pyStrip "SELECTION 1")) "SELECT" = true
        from by decide]

/-! ## plan node (nodes.py lines 39-76)

The hosted model is an oracle taking the joined context block and the
question and returning the response message.  The fixed prompt constants
SYSTEM_PROMPT and PLAN_PROMPT are parameters: every theorem below holds
for any value of them.
-/

/-- The latest user message content, or the empty string when none exists
(nodes.py lines 44-47). -/
def lastHumanContent (msgs : List Msg) : String :=
  match msgs.reverse.find? (fun m => m.type == MsgType.human) with
  | some m => m.content
  | Option.none => ""

/-- The context_parts list built by plan (nodes.py lines 54-66): system
prompt, plan prompt, question, iteration progress, then the todo list,
collected data, and reflection feedback, each included only when truthy —
the reflection part additionally requires iteration > 0. -/
def planContext (systemPrompt planPrompt : String) (st : AgentState) :
    List String :=
  let question := lastHumanContent st.messages
  let parts1 := [systemPrompt, planPrompt]
  let parts2 := parts1 ++ ["\nUser question: " ++ question]
  let parts3 := parts2 ++
    ["\nIteration: " ++ toString (st.iteration + 1) ++ " / " ++
      toString st.max_iterations]
  let parts4 :=
    if st.todo ≠ [] then
      parts3 ++ ["\nCurrent TODO list:\n" ++
        String.intercalate "\n" (st.todo.map (fun t => "- " ++ t))]
    else parts3
  let parts5 :=
    if st.collected_results ≠ [] then
      parts4 ++ ["\nData collected so far:\n" ++
        String.intercalate "\n---\n" st.collected_results]
    else parts4
  if st.reflection ≠ "" ∧ 0 < st.iteration then
    parts5 ++ ["\nReflection from previous iteration:\n" ++ st.reflection]
  else parts5

/-- The dict returned by the plan node: one response message and the
incremented iteration counter. -/
structure PlanUpdate where
  messages : List Msg
  iteration : Nat

/-- plan of src/agent/nodes.py: build the context, invoke the tool-bound
model on it together with the question, and return the response with
iteration + 1. -/
def plan (systemPrompt planPrompt : String) (llm : String → String → Msg)
    (st : AgentState) : PlanUpdate :=
  let question := lastHumanContent st.messages
  { messages :=
      [llm (String.intercalate "\n" (planContext systemPrompt planPrompt st))
        question]
    iteration := st.iteration + 1 }

/-- The LangGraph state update performed by plan: the messages field uses
the add_messages reducer, which appends the fresh response message, and
iteration is replaced. -/
def applyPlan (systemPrompt planPrompt : String) (llm : String → String → Msg)
    (st : AgentState) : AgentState :=
  let upd := plan systemPrompt planPrompt llm st
  { st with messages := st.messages ++ upd.messages, iteration := upd.iteration }

/-- C8: every run of the plan node increments iteration by exactly one and
appends exactly one message; and on the first planning round of a turn
(iteration = 0) the context is independent of the reflection field — the
reflection feedback is consulted only when iteration > 0. -/
theorem plan_increment_and_reflection_gate (systemPrompt planPrompt : String)
    (llm : String → String → Msg) (st : AgentState) :
    (applyPlan systemPrompt planPrompt llm st).iteration = st.iteration + 1 ∧
    (applyPlan systemPrompt planPrompt llm st).messages.length =
      st.messages.length + 1 ∧
    (st.iteration = 0 → ∀ r : String,
      planContext systemPrompt planPrompt st =
        planContext systemPrompt planPrompt { st with reflection := r }) := by
  refine ⟨rfl, by simp [applyPlan, plan], ?_⟩
  intro h r
  simp [planContext, h]

/-- A plan-model oracle echoing its context and question. -/
def wPlanLLM : String → String → Msg :=
  fun ctx q =>
    { type := MsgType.ai, name := "", content := ctx ++ q,
      parsedContent := Option.none }

/-- A turn at its first planning round with stale reflection text left in
the shared field by the router. -/
def wPlanState : AgentState :=
  { messages :=
      [{ type := MsgType.human, name := "", content := "top products?",
         parsedContent := Option.none }]
    depth := 1
    max_iterations := 2
    iteration := 0
    collected_results := []
    todo := []
    reflection := "needs_tools"
    reflection_satisfied := true
    rag_sources := [] }

/-- C8 witness: on the concrete first-round state the node yields
iteration 1, appends one message, and the context ignores the reflection
field. -/
theorem plan_increment_and_reflection_gate_witness :
    (applyPlan "SYS" "PLAN" wPlanLLM wPlanState).iteration = 1 ∧
    (applyPlan "SYS" "PLAN" wPlanLLM wPlanState).messages.length = 2 ∧
    planContext "SYS" "PLAN" wPlanState =
      planContext "SYS" "PLAN" { wPlanState with reflection := "other" } := by
  obtain ⟨h1, h2, h3⟩ :=
    plan_increment_and_reflection_gate "SYS" "PLAN" wPlanLLM wPlanState
  exact ⟨h1, by simpa using h2, h3 rfl "other"⟩

/-! ## synthesize node (nodes.py lines 133-163)

The model reply is an oracle string (the content-blocks normalisation of
lines 151-153 collapses a block list to text; the oracle hands over that
text).  The node then appends the deduplicated source section when any
rag_sources were recorded.
-/

/-- dict.fromkeys based deduplication used at nodes.py line 158: fold the
identifiers left to right, keeping the first occurrence of each. -/
def pyDedup (l : List String) : List String :=
  l.foldl (fun acc x => if x ∈ acc then acc else acc ++ [x]) []

/-- Reference rendering of the specification wording for the source list:
each distinct identifier exactly once, at the position of its first
occurrence. -/
def specFirstOccurrenceDedup : List String → List String
  | [] => []
  | x :: xs => x :: specFirstOccurrenceDedup (xs.filter (fun y => y != x))
termination_by l => l.length
decreasing_by
  simp only [List.length_cons]
  exact Nat.lt_succ_of_le (List.length_filter_le _ _)

def SOURCES_HEADING : String := "\n\n---\n**Sources (Product Technical Sheets):**\n"

/-- The sources section appended by synthesize (nodes.py lines 158-160). -/
def sourcesSection (ragSources : List RagSource) : String :=
  let uniqueSources := pyDedup (ragSources.map RagSource.source)
  SOURCES_HEADING ++
    String.intercalate "\n" (uniqueSources.map (fun s => "- " ++ s))

/-- The final answer content assembled by synthesize: the model text, plus
the source section iff any rag_sources were recorded this turn. -/
def synthesizeContent (llmText : String) (ragSources : List RagSource) :
    String :=
  if ragSources ≠ [] then llmText ++ sourcesSection ragSources else llmText

/-- The dict returned by the synthesize node: one final AI message. -/
structure SynthUpdate where
  messages : List Msg

/-- synthesize of src/agent/nodes.py. -/
def synthesize (llmText : String) (st : AgentState) : SynthUpdate :=
  { messages :=
      [{ type := MsgType.ai, name := "",
         content := synthesizeContent llmText st.rag_sources,
         parsedContent := Option.none }] }

/-- The foldl of pyDedup, run from an arbitrary accumulator, appends the
first-occurrence deduplication of the yet-unseen identifiers. -/
theorem pyDedup_go (l acc : List String) :
    l.foldl (fun acc x => if x ∈ acc then acc else acc ++ [x]) acc =
      acc ++ specFirstOccurrenceDedup (l.filter (fun y => decide (y ∉ acc))) := by
  induction l generalizing acc with
  | nil => simp [specFirstOccurrenceDedup]
  | cons x xs ih =>
    by_cases hx : x ∈ acc
    · have hfx : decide (x ∉ acc) = false := by simp [hx]
      simp only [List.foldl_cons, if_pos hx, List.filter_cons, hfx]
      exact ih acc
    · have hfx : decide (x ∉ acc) = true := by simp [hx]
      simp only [List.foldl_cons, if_neg hx, List.filter_cons, hfx, if_pos,
        specFirstOccurrenceDedup]
      rw [ih (acc ++ [x])]
      rw [List.append_assoc, List.singleton_append]
      congr 2
      rw [List.filter_filter]
      congr 1
      apply List.filter_congr
      intro y _
      by_cases h1 : y ∈ acc <;> by_cases h2 : y = x <;>
        simp [h1, h2, List.mem_append]

/-- pyDedup computes exactly the first-occurrence deduplication. -/
theorem pyDedup_eq_spec (l : List String) :
    pyDedup l = specFirstOccurrenceDedup l := by
  have h := pyDedup_go l []
  simpa [pyDedup] using h

/-- Membership is preserved by the first-occurrence deduplication. -/
theorem specDedup_mem (l : List String) :
    ∀ y, (y ∈ specFirstOccurrenceDedup l ↔ y ∈ l) := by
  induction l using specFirstOccurrenceDedup.induct with
  | case1 =>
    intro y
    rw [specFirstOccurrenceDedup]
  | case2 x xs ih =>
    intro y
    rw [specFirstOccurrenceDedup]
    by_cases hyx : y = x
    · subst hyx
      simp
    · simp [List.mem_cons, hyx, ih y, List.mem_filter, bne_iff_ne]

/-- The first-occurrence deduplication lists each identifier at most
once. -/
theorem specDedup_nodup (l : List String) :
    (specFirstOccurrenceDedup l).Nodup := by
  induction l using specFirstOccurrenceDedup.induct with
  | case1 =>
    rw [specFirstOccurrenceDedup]
    exact List.nodup_nil
  | case2 x xs ih =>
    rw [specFirstOccurrenceDedup]
    refine List.nodup_cons.mpr ⟨?_, ih⟩
    intro hmem
    have hx := (specDedup_mem _ x).mp hmem
    rcases List.mem_filter.mp hx with ⟨_, hne⟩
    simp at hne

/-- C7: with rag_sources empty the synthesize node returns the model text
unchanged; with rag_sources non-empty it appends under the fixed heading
the bulleted list of source identifiers deduplicated in first-occurrence
order — each distinct identifier exactly once (Nodup plus membership in
the original sequence). -/
theorem synthesize_sources_dedup (llmText : String) (st : AgentState) :
    (st.rag_sources = [] →
      (synthesize llmText st).messages.map Msg.content = [llmText]) ∧
    (st.rag_sources ≠ [] →
      (synthesize llmText st).messages.map Msg.content =
        [llmText ++ (SOURCES_HEADING ++
          String.intercalate "\n"
            ((specFirstOccurrenceDedup (st.rag_sources.map RagSource.source)).map
              (fun s => "- " ++ s)))] ∧
      (specFirstOccurrenceDedup (st.rag_sources.map RagSource.source)).Nodup ∧
      (∀ y, y ∈ specFirstOccurrenceDedup (st.rag_sources.map RagSource.source) ↔
        y ∈ st.rag_sources.map RagSource.source)) := by
  constructor
  · intro h
    simp [synthesize, synthesizeContent, h]
  · intro h
    refine ⟨?_, specDedup_nodup _, specDedup_mem _⟩
    simp [synthesize, synthesizeContent, h, sourcesSection, pyDedup_eq_spec]

/-- A turn that recorded duplicate rag sources. -/
def wSynthState : AgentState :=
  { messages := []
    depth := 1
    max_iterations := 2
    iteration := 2
    collected_results := []
    todo := []
    reflection := ""
    reflection_satisfied := true
    rag_sources :=
      [ { source := "7021.pdf", tool := "query_rag" },
        { source := "235664.pdf", tool := "query_rag" },
        { source := "7021.pdf", tool := "query_rag" } ] }

/-- C7 witness: duplicated source identifiers are listed once each, in
first-occurrence order, under the fixed heading. -/
theorem synthesize_sources_dedup_witness :
    (synthesize "ANSWER" wSynthState).messages.map Msg.content =
      ["ANSWER" ++ (SOURCES_HEADING ++
        String.intercalate "\n"
          ((specFirstOccurrenceDedup (wSynthState.rag_sources.map RagSource.source)).map
            (fun s => "- " ++ s)))] :=
  ((synthesize_sources_dedup "ANSWER" wSynthState).2 (by decide)).1

/-! ## Semantic retrieval tool (src/tools_rag.py, query_rag)

The embedding store lookup (similarity_search with k = 5) and the
structured-output model call are oracles.  On an empty hit list the tool
returns a fixed plain-text sentinel; otherwise it serialises the model's
structured answer as the JSON text json.dumps produces for the dict with
exactly the keys answer and used_sources.
-/

/-- One retrieved document chunk: its source_path metadata entry (absent
entries fall back to the string unknown) and its page content. -/
structure Doc where
  source_path : Option String
  page_content : String
deriving DecidableEq

/-- The structured output contract RAGResponse of src/tools_rag.py. -/
structure RAGResponse where
  answer : String
  used_sources : List String

def NO_CONTEXT_MSG : String :=
  "No relevant product technical sheet context found for this question."

/-- Model of the json.dumps escaping of one character (the ensure_ascii
folding of non-ASCII characters and of rare control characters is not
modelled; no property below depends on it). -/
def jsonEscapeChar (c : Char) : String :=
  if c = '\\' then "\\\\"
  else if c = '"' then "\\\""
  else if c = '\n' then "\\n"
  else if c = '\t' then "\\t"
  else if c = '\r' then "\\r"
  else String.singleton c

/-- Model of json.dumps string escaping. -/
def jsonEscape (s : String) : String :=
  String.join (s.data.map jsonEscapeChar)

/-- A JSON string literal as json.dumps renders it. -/
def jsonStr (s : String) : String := "\"" ++ jsonEscape s ++ "\""

/-- The JSON text json.dumps produces at src/tools_rag.py line 75 for the
result dict: exactly the two fields answer and used_sources, with the
default separators. -/
def jsonDumpsRag (r : RAGResponse) : String :=
  "\x7b" ++ ("\"answer\": " ++ jsonStr r.answer ++ ", \"used_sources\": [" ++
    String.intercalate ", " (r.used_sources.map jsonStr) ++ "]\x7d")

/-- The context blocks built from the retrieved chunks (lines 52-57). -/
def ragContextBlocks (docs : List Doc) : List String :=
  docs.map (fun d =>
    "Source: " ++ pathName (d.source_path.getD "unknown") ++ "\n" ++
      d.page_content)

/-- query_rag of src/tools_rag.py: search, bail out with the plain
sentinel on no hits, otherwise ask the structured model and serialise its
answer as JSON text.  The llm oracle receives the question and the joined
context text (the fixed instruction prefix of the prompt is folded into
the oracle). -/
def query_rag (search : String → List Doc)
    (llm : String → String → RAGResponse) (question : String) : String :=
  let docs := search question
  if docs = [] then NO_CONTEXT_MSG
  else
    let contextText := String.intercalate "\n\n---\n\n" (ragContextBlocks docs)
    jsonDumpsRag (llm question contextText)

/-- The serialised RAG result always opens with a brace. -/
theorem jsonDumpsRag_head (r : RAGResponse) :
    (jsonDumpsRag r).data.head? = some (Char.ofNat 123) := by
  rw [jsonDumpsRag, data_append_eq]
  rfl

/-- The serialised RAG result is never the no-context sentinel: their
first characters differ. -/
theorem jsonDumpsRag_ne_sentinel (r : RAGResponse) :
    (jsonDumpsRag r == NO_CONTEXT_MSG) = false := by
  rw [beq_eq_false_iff_ne]
  intro h
  have h0 := jsonDumpsRag_head r
  rw [h] at h0
  exact absurd h0 (by decide)

/-- C9: with no matching document chunks query_rag returns the fixed
plain-text sentinel; with at least one chunk it returns the JSON
serialisation, holding exactly the fields answer and used_sources, of the
structured model output; and no JSON-path output ever coincides with the
sentinel (the sentinel is not of the JSON object form). -/
theorem query_rag_output_shape (search : String → List Doc)
    (llm : String → String → RAGResponse) (question : String) :
    (search question = [] → query_rag search llm question = NO_CONTEXT_MSG) ∧
    (search question ≠ [] →
      query_rag search llm question =
        jsonDumpsRag (llm question
          (String.intercalate "\n\n---\n\n"
            (ragContextBlocks (search question))))) ∧
    (∀ r : RAGResponse, (jsonDumpsRag r == NO_CONTEXT_MSG) = false) := by
  refine ⟨?_, ?_, jsonDumpsRag_ne_sentinel⟩
  · intro h
    simp [query_rag, h]
  · intro h
    simp [query_rag, h]

/-- A retrieved chunk with a nested source path. -/
def wDoc : Doc :=
  { source_path := some "data/pdfs/7021.pdf", page_content := "silk coat" }

def wSearchEmpty : String → List Doc := fun _ => []

def wSearchHit : String → List Doc := fun _ => [wDoc]

def wRagLLM : String → String → RAGResponse :=
  fun _ _ => { answer := "It is silk.", used_sources := ["7021.pdf"] }

/-- C9 witness: a no-hit search yields the sentinel and a one-hit search
yields the JSON serialisation of the model output. -/
theorem query_rag_output_shape_witness :
    query_rag wSearchEmpty wRagLLM "what is the coat made of" =
      NO_CONTEXT_MSG ∧
    query_rag wSearchHit wRagLLM "what is the coat made of" =
      jsonDumpsRag (wRagLLM "what is the coat made of"
        (String.intercalate "\n\n---\n\n"
          (ragContextBlocks (wSearchHit "what is the coat made of")))) :=
  ⟨(query_rag_output_shape wSearchEmpty wRagLLM "what is the coat made of").1
      rfl,
   (query_rag_output_shape wSearchHit wRagLLM "what is the coat made of").2.1
      (by decide)⟩

end DelawareAgent
